import Mathlib

/-!
Verification development for the kavosh-backend repository.

The definitions below are shallow embeddings of the JavaScript source:

* the dynamic API key manager that appears, with identical code, in
  src/server.js (final variant, lines 1550-1581) and in
  src/unnamed/part_003 (lines 63-93);
* the Twitter / Telegram / mock search handlers, the /api/ai/enhance
  handler and the /api/search/multi aggregation of src/unnamed/part_003;
* the corresponding handlers and aggregation of the final variant in
  src/server.js (lines 1660-1832), and the dispatch switch and mock
  generator of the Railway variant in src/server.js (lines 1056-1094 and
  1166-1202).

Outbound HTTP traffic is modelled by an oracle that supplies, for each
fetch the code performs, the status code and parsed body the caller
observes (or the fact that the fetch or the JSON parse threw).  The
randomized content of result items (metrics, timestamps, sentiment) is
irrelevant to every verified property and the item model keeps only the
id and platform fields; list lengths and envelope bookkeeping are
translated literally.  The rotation cursor is shared mutable state
without synchronization; handlers are modelled against the key-manager
state current when the request starts.
-/

namespace Kavosh

/-- The three external services the key manager tracks, mirroring the
object literal with keys openai, gemini, twitter. -/
inductive Service
  | openai
  | gemini
  | twitter
  deriving DecidableEq, Repr

/-- Credential pools per service, as produced by loadApiKeys at process
start.  Immutable afterwards. -/
structure ApiKeys where
  openai : List String
  gemini : List String
  twitter : List String
  deriving DecidableEq, Repr

/-- Field access for apiKeys[service]. -/
def ApiKeys.get (k : ApiKeys) : Service → List String
  | .openai => k.openai
  | .gemini => k.gemini
  | .twitter => k.twitter

/-- The mutable indices object of the keyManager: one cursor per
service. -/
structure KeyManager where
  openaiIdx : Nat
  geminiIdx : Nat
  twitterIdx : Nat
  deriving DecidableEq, Repr

/-- Read this.indices[service]. -/
def KeyManager.index (m : KeyManager) : Service → Nat
  | .openai => m.openaiIdx
  | .gemini => m.geminiIdx
  | .twitter => m.twitterIdx

/-- Write this.indices[service] = n. -/
def KeyManager.setIndex (m : KeyManager) : Service → Nat → KeyManager
  | .openai, n => { m with openaiIdx := n }
  | .gemini, n => { m with geminiIdx := n }
  | .twitter, n => { m with twitterIdx := n }

/-- Startup state: indices: \x7b openai: 0, gemini: 0, twitter: 0 \x7d. -/
def KeyManager.init : KeyManager := ⟨0, 0, 0⟩

/-- getKey(service): null when no credentials are configured, otherwise
the credential at the current cursor (an out-of-range cursor yields
undefined, modelled as none). -/
def KeyManager.getKey (keys : ApiKeys) (m : KeyManager) (s : Service) :
    Option String :=
  if (keys.get s).length = 0 then none
  else (keys.get s)[m.index s]?

/-- rotateKey(service): no-op when fewer than two credentials exist,
otherwise a modular increment of the cursor. -/
def KeyManager.rotateKey (keys : ApiKeys) (m : KeyManager) (s : Service) :
    KeyManager :=
  if (keys.get s).length < 2 then m
  else m.setIndex s ((m.index s + 1) % (keys.get s).length)

/-- The two operations a caller can perform on the key manager; getKey
reads the state without modifying it. -/
inductive KeyOp
  | getK (s : Service)
  | rotK (s : Service)
  deriving DecidableEq, Repr

/-- State transition of one operation. -/
def KeyManager.applyOp (keys : ApiKeys) (m : KeyManager) : KeyOp → KeyManager
  | .getK _ => m
  | .rotK s => m.rotateKey keys s

/-- State after a sequence of getKey / rotateKey calls starting from the
startup state. -/
def KeyManager.run (keys : ApiKeys) (ops : List KeyOp) : KeyManager :=
  ops.foldl (KeyManager.applyOp keys) KeyManager.init

/-- One normalized search result item.  The source items carry many
content fields (templated text, randomized metrics, timestamps); none of
them is inspected by any verified property, so the model keeps the
deterministic identity fields only: the id (without the Date.now()
timestamp component of mock ids) and the platform tag. -/
structure ResultItem where
  id : String
  platform : String
  deriving DecidableEq, Repr

/-- The data object of a platform envelope.  Absent JSON fields are
modelled by none (for total and note) and by the empty list (for
results); the error entries of the dispatchers build data objects that
carry only a platform field. -/
structure SearchData where
  results : List ResultItem := []
  total : Option Nat := none
  platform : String
  note : Option String := none
  deriving DecidableEq, Repr

/-- A per-platform result envelope: success flag plus optional data,
error and (in the Railway variant error entries) a top-level platform
field. -/
structure PlatformResult where
  success : Bool
  data : Option SearchData := none
  error : Option String := none
  platform : Option String := none
  deriving DecidableEq, Repr

/-- Observable outcome of one fetch to the Twitter API: either the fetch
(or a later await on the body) threw, or it yielded a status code and,
when the body parsed, the tweet ids of data.data. -/
inductive FetchOutcome
  | thrown (msg : String)
  | resp (status : Nat) (body : Option (List String))
  deriving DecidableEq, Repr

/-- Classifies the fetch outcomes on which the callers rotate keys:
responses with HTTP status 429 or 401. -/
def isAuthFail : FetchOutcome → Bool
  | .resp status _ => status == 429 || status == 401
  | .thrown _ => false

/-- node-fetch response.ok: status in the 2xx range. -/
def statusOk (status : Nat) : Bool := 200 ≤ status && status < 300

/-- JavaScript whitespace recognized by the model of trim: the blank
characters that occur in HTTP request strings. -/
def isWsChar (c : Char) : Bool :=
  c == (' ') || c == ('\t') || c == ('\n') || c == ('\r')

/-- String.prototype.trim, modelled over the character list so that it
evaluates inside the kernel. -/
def jsTrim (s : String) : String :=
  ⟨((s.data.dropWhile isWsChar).reverse.dropWhile isWsChar).reverse⟩

/-- String.prototype.toLowerCase, modelled over the character list. -/
def jsToLower (s : String) : String := ⟨s.data.map Char.toLower⟩

/-- Truthiness test the part_003 validations perform on a string field:
absent, empty, or empty after trim (the source writes
!query || !query.trim()). -/
def isBlankJS : Option String → Bool
  | none => true
  | some s => s == ("") || jsTrim s == ("")

/-- Truthiness test of the final server.js variant, which checks !query
without trimming: only absent or empty strings count. -/
def jsFalsy : Option String → Bool
  | none => true
  | some s => s == ("")

/-- Response of a /api/search/multi handler, reduced to its observable
parts: HTTP status, top-level success flag, optional message, the
per-platform entries of data.platforms as an ordered key-value list
(JavaScript object insertion semantics), data.total, and the number of
platform searches that were started while serving the request. -/
structure MultiResponse where
  status : Nat
  success : Bool
  message : Option String := none
  entries : List (String × PlatformResult) := []
  total : Nat := 0
  dispatched : Nat := 0
  deriving DecidableEq, Repr

/-- Assignment platformResults[name] = value on a JavaScript object,
modelled on the ordered key-value list: replace in place when the key
exists, append otherwise. -/
def upsert (m : List (String × PlatformResult)) (k : String)
    (v : PlatformResult) : List (String × PlatformResult) :=
  if m.any (fun kv => kv.1 == k) then
    m.map (fun kv => if kv.1 == k then (k, v) else kv)
  else m ++ [(k, v)]

/-- Property read platformResults[name] on the entry list. -/
def findEntry (k : String) (entries : List (String × PlatformResult)) :
    Option PlatformResult :=
  (entries.find? (fun kv => kv.1 == k)).map Prod.snd

/-- Sum, over exactly the entries whose success field is true, of the
data.total values (an absent data or total contributes nothing).  This
is the quantity the C6 claim relates to the top-level total. -/
def respSum (entries : List (String × PlatformResult)) : Nat :=
  (entries.map (fun kv =>
    if kv.2.success then ((kv.2.data.bind SearchData.total).getD 0) else 0)).sum

namespace Part003

/-- Mock result items of createMockResults in src/unnamed/part_003
(lines 291-335): Math.min(count, 10) items; the id is
mock_PLATFORM_TIMESTAMP_i with the nondeterministic timestamp omitted
from the model. -/
def createMockResults (platform query : String) (count : Nat) :
    PlatformResult :=
  let results := (List.range (min count 10)).map (fun i =>
    ({ id := ("mock_") ++ platform ++ ("_") ++ toString i,
       platform := platform } : ResultItem))
  { success := true,
    data := some
      { results := results,
        total := some results.length,
        platform := platform,
        note := some (("نمونه داده برای ") ++ platform ++
          (" - در نسخه کامل، داده‌های واقعی نمایش داده خواهد شد.")) } }

/-- Successful Twitter envelope built from the parsed tweet list
(src/unnamed/part_003 lines 254-280). -/
def twitterSuccess (ids : List String) : PlatformResult :=
  let results := ids.map (fun tid =>
    ({ id := tid, platform := ("twitter") } : ResultItem))
  { success := true,
    data := some
      { results := results,
        total := some results.length,
        platform := ("twitter") } }

/-- Observable state of one run of makeTwitterSearch: the value the
async function resolves with (none models the implicit undefined that
the source would return if the loop ever fell through), the key-manager
state afterwards, and the max_results parameter of every fetch actually
performed (so the list length is the number of outbound calls). -/
structure TwitterRun where
  result : Option PlatformResult
  km : KeyManager
  maxResultsParams : List Nat
  deriving Repr

/-- Retry loop of makeTwitterSearch (src/unnamed/part_003 lines
212-288).  The fuel argument counts the remaining loop iterations, so
fuel = 0 inside the match corresponds to attempt === maxRetries - 1;
the oracle gives the outcome of the fetch of each attempt. -/
def twitterLoop (keys : ApiKeys) (query : String) (count : Nat)
    (oracle : Nat → FetchOutcome) (km : KeyManager) (attempt fuel : Nat) :
    TwitterRun :=
  match fuel with
  | 0 => ⟨none, km, []⟩
  | fuel + 1 =>
    match KeyManager.getKey keys km .twitter with
    | none => ⟨some (createMockResults ("twitter") query count), km, []⟩
    | some _ =>
      match oracle attempt with
      | .thrown _ =>
        if fuel = 0 then
          ⟨some (createMockResults ("twitter") query count), km,
           [min count 100]⟩
        else
          let r := twitterLoop keys query count oracle km (attempt + 1) fuel
          ⟨r.result, r.km, (min count 100) :: r.maxResultsParams⟩
      | .resp status body =>
        if status == 429 || status == 401 then
          let km2 := km.rotateKey keys .twitter
          if fuel = 0 then
            ⟨some (createMockResults ("twitter") query count), km2,
             [min count 100]⟩
          else
            let r := twitterLoop keys query count oracle km2 (attempt + 1) fuel
            ⟨r.result, r.km, (min count 100) :: r.maxResultsParams⟩
        else if statusOk status = false then
          if fuel = 0 then
            ⟨some (createMockResults ("twitter") query count), km,
             [min count 100]⟩
          else
            let r := twitterLoop keys query count oracle km (attempt + 1) fuel
            ⟨r.result, r.km, (min count 100) :: r.maxResultsParams⟩
        else
          match body with
          | none =>
            if fuel = 0 then
              ⟨some (createMockResults ("twitter") query count), km,
               [min count 100]⟩
            else
              let r := twitterLoop keys query count oracle km (attempt + 1) fuel
              ⟨r.result, r.km, (min count 100) :: r.maxResultsParams⟩
          | some ids => ⟨some (twitterSuccess ids), km, [min count 100]⟩

/-- makeTwitterSearch of src/unnamed/part_003: the retry loop runs for
maxRetries = Math.max(len(twitter credentials), 1) iterations. -/
def makeTwitterSearch (keys : ApiKeys) (km : KeyManager) (query : String)
    (count : Nat) (oracle : Nat → FetchOutcome) : TwitterRun :=
  twitterLoop keys query count oracle km 0 (max keys.twitter.length 1)

/-- Observable outcome of the Telegram SearchGlobal invocation. -/
inductive TelegramOutcome
  | throws
  | msgs (ids : List String)
  deriving DecidableEq, Repr

/-- Successful Telegram envelope (src/unnamed/part_003 lines 167-203);
each message id stands for the telegram_CHANNEL_MSGID identifier. -/
def telegramSuccess (ids : List String) : PlatformResult :=
  let results := ids.map (fun mid =>
    ({ id := ("telegram_") ++ mid, platform := ("telegram") } : ResultItem))
  { success := true,
    data := some
      { results := results,
        total := some results.length,
        platform := ("telegram") } }

/-- makeTelegramSearch of src/unnamed/part_003 (lines 149-209): mock
data when the client is unavailable or the invocation throws, otherwise
the formatted messages. -/
def makeTelegramSearch (connected : Bool) (oracle : TelegramOutcome)
    (query : String) (count : Nat) : PlatformResult :=
  if connected = false then createMockResults ("telegram") query count
  else
    match oracle with
    | .throws => createMockResults ("telegram") query count
    | .msgs ids => telegramSuccess ids

/-- Observable outcome of one fetch to the OpenAI chat completion API:
either the fetch (or a later await) threw, or it yielded a status code
and, for a 2xx response, the extracted analysis string
data.choices[0].message.content.trim() (none when absent). -/
inductive AiFetchOutcome
  | thrown (msg : String)
  | resp (status : Nat) (analysis : Option String)
  deriving DecidableEq, Repr

/-- Classifies the OpenAI fetch outcomes on which the caller rotates
keys: responses with HTTP status 429 or 401. -/
def isAiAuthFail : AiFetchOutcome → Bool
  | .resp status _ => status == 429 || status == 401
  | .thrown _ => false

/-- HTTP reply of the /api/ai/enhance handler. -/
structure AiReply where
  status : Nat
  success : Bool
  analysis : Option String := none
  message : Option String := none
  deriving DecidableEq, Repr

/-- Canned analysis returned when no OpenAI key is configured
(src/unnamed/part_003 line 492). -/
def aiFallbackNoKey (query : String) : String :=
  ("تحلیل خودکار برای \"") ++ query ++
  ("\": متاسفانه سرویس تحلیل هوش مصنوعی در حال حاضر در دسترس نیست. با این حال، از نتایج جستجو می‌توان استنباط کرد که محتوای مرتبط با موضوع مورد نظر شما در پلتفرم‌های مختلف یافت شده است.")

/-- Canned analysis returned when the last attempt is rate limited or
unauthorized (src/unnamed/part_003 line 534). -/
def aiFallbackRateLimited (query : String) : String :=
  ("تحلیل خودکار: بر اساس نتایج جستجو برای \"") ++ query ++
  ("\"، محتوای متنوعی یافت شده است. لطفاً برای تحلیل دقیق‌تر، مجدداً تلاش کنید.")

/-- Canned analysis returned when the last attempt throws
(src/unnamed/part_003 line 557). -/
def aiFallbackError (query : String) : String :=
  ("تحلیل خودکار برای \"") ++ query ++
  ("\": بر اساس داده‌های جمع‌آوری شده، نتایج متنوعی یافت شده است. برای دریافت تحلیل دقیق‌تر، لطفاً مجدداً تلاش کنید.")

/-- Observable state of one run of the /api/ai/enhance handler: the
reply sent (none models the implicit undefined of a loop fallthrough),
the key-manager state afterwards and the number of OpenAI fetches
performed. -/
structure AiRun where
  reply : Option AiReply
  km : KeyManager
  fetches : Nat
  deriving Repr

/-- Retry loop of the /api/ai/enhance handler (src/unnamed/part_003
lines 487-562), with the same fuel convention as twitterLoop. -/
def aiLoop (keys : ApiKeys) (query : String)
    (oracle : Nat → AiFetchOutcome) (km : KeyManager) (attempt fuel : Nat) :
    AiRun :=
  match fuel with
  | 0 => ⟨none, km, 0⟩
  | fuel + 1 =>
    match KeyManager.getKey keys km .openai with
    | none =>
      ⟨some { status := 200, success := true,
              analysis := some (aiFallbackNoKey query) }, km, 0⟩
    | some _ =>
      match oracle attempt with
      | .thrown _ =>
        if fuel = 0 then
          ⟨some { status := 200, success := true,
                  analysis := some (aiFallbackError query) }, km, 1⟩
        else
          let r := aiLoop keys query oracle km (attempt + 1) fuel
          ⟨r.reply, r.km, r.fetches + 1⟩
      | .resp status analysis =>
        if status == 429 || status == 401 then
          let km2 := km.rotateKey keys .openai
          if fuel = 0 then
            ⟨some { status := 200, success := true,
                    analysis := some (aiFallbackRateLimited query) }, km2, 1⟩
          else
            let r := aiLoop keys query oracle km2 (attempt + 1) fuel
            ⟨r.reply, r.km, r.fetches + 1⟩
        else if statusOk status = false then
          if fuel = 0 then
            ⟨some { status := 200, success := true,
                    analysis := some (aiFallbackError query) }, km, 1⟩
          else
            let r := aiLoop keys query oracle km (attempt + 1) fuel
            ⟨r.reply, r.km, r.fetches + 1⟩
        else
          ⟨some { status := 200, success := true, analysis := analysis },
           km, 1⟩

/-- The /api/ai/enhance handler of src/unnamed/part_003 (lines
457-575): input validation followed by the key-rotation retry loop with
maxRetries = Math.max(len(openai credentials), 1). -/
def aiEnhance (keys : ApiKeys) (km : KeyManager) (text : Option String)
    (query service : String) (oracle : Nat → AiFetchOutcome) : AiRun :=
  if isBlankJS text then
    ⟨some { status := 400, success := false,
            message := some ("Text is required for AI analysis.") }, km, 0⟩
  else if service ≠ ("openai") then
    ⟨some { status := 400, success := false,
            message := some ("Only OpenAI is supported currently.") }, km, 0⟩
  else
    aiLoop keys query oracle km 0 (max keys.openai.length 1)

/-- Behavior of one platform handler as seen by the dispatcher of
/api/search/multi: an async callback either resolves with a value (none
models resolving with undefined) or throws. -/
inductive HandlerBehavior
  | returns (v : Option PlatformResult)
  | throws (msg : String)
  deriving Repr

/-- Value the per-platform search promise of src/unnamed/part_003
(lines 388-415) settles with: the try block result, or the catch block
error entry carrying the platform name. -/
def searchPromise (p : String) : HandlerBehavior → Option PlatformResult
  | .returns v => v
  | .throws msg =>
    some { success := false, error := some msg,
           data := some { platform := p } }

/-- Entry stored for one settled promise by the forEach of
src/unnamed/part_003 (lines 421-435): the fulfilled truthy value, or
the Search failed record when the value is undefined. -/
def settleValue (p : String) : Option PlatformResult → PlatformResult
  | some r => r
  | none =>
    { success := false, error := some ("Search failed"),
      data := some { platform := p } }

/-- Amount a settled value adds to totalResults
(src/unnamed/part_003 lines 425-427). -/
def contribution (r : PlatformResult) : Nat :=
  if r.success && r.data.isSome then ((r.data.bind SearchData.total).getD 0)
  else 0

/-- The results.forEach aggregation of src/unnamed/part_003 (lines
417-435): builds platformResults keyed by the requested platform name
and accumulates totalResults. -/
def aggregate (pairs : List (String × Option PlatformResult)) :
    List (String × PlatformResult) × Nat :=
  pairs.foldl (fun acc pv =>
    (upsert acc.1 pv.1 (settleValue pv.1 pv.2),
     acc.2 + contribution (settleValue pv.1 pv.2)))
    ([], 0)

/-- The /api/search/multi handler of src/unnamed/part_003 (lines
356-454), parameterized by the behavior of each platform handler;
request bodies of the wrong JSON type (platforms not an array) are
outside the typed model, matching the explicit !Array.isArray check
only through the empty default. -/
def multiEndpoint (handler : String → HandlerBehavior)
    (query : Option String) (platforms : Option (List String)) :
    MultiResponse :=
  if isBlankJS query then
    { status := 400, success := false,
      message := some ("Query is required and cannot be empty") }
  else if (platforms.getD []).isEmpty then
    { status := 400, success := false,
      message := some ("At least one platform must be specified") }
  else
    let ps := platforms.getD []
    let et := aggregate (ps.map (fun p => (p, searchPromise p (handler p))))
    { status := 200, success := true, entries := et.1, total := et.2,
      dispatched := ps.length }

/-- Platform identifiers the part_003 switch recognizes (its case
labels). -/
def supportedPlatforms : List String :=
  [("twitter"), ("telegram"), ("instagram"), ("facebook"), ("eitaa"),
   ("rubika")]

/-- The switch of the src/unnamed/part_003 dispatcher (lines 388-406):
handler selection on the lowercased platform identifier; the handlers
themselves never throw because each one catches internally. -/
def dispatch (keys : ApiKeys) (km : KeyManager) (connected : Bool)
    (tgOracle : TelegramOutcome) (twOracle : Nat → FetchOutcome)
    (query : String) (count : Nat) (p : String) : Option PlatformResult :=
  match jsToLower p with
  | "twitter" => (makeTwitterSearch keys km query count twOracle).result
  | "telegram" => some (makeTelegramSearch connected tgOracle query count)
  | "instagram" => some (createMockResults p query count)
  | "facebook" => some (createMockResults p query count)
  | "eitaa" => some (createMockResults p query count)
  | "rubika" => some (createMockResults p query count)
  | _ =>
    some { success := false, error := some (("Unsupported platform: ") ++ p),
           data := some { platform := p } }

/-- The fully concrete /api/search/multi handler of
src/unnamed/part_003. -/
def multi (keys : ApiKeys) (km : KeyManager) (connected : Bool)
    (tgOracle : TelegramOutcome) (twOracle : Nat → FetchOutcome)
    (query : Option String) (platforms : Option (List String))
    (count : Nat) : MultiResponse :=
  multiEndpoint
    (fun p => .returns
      (dispatch keys km connected tgOracle twOracle (query.getD ("")) count p))
    query platforms

end Part003

namespace ServerFinal

/-- createMockResults of the final server.js variant (lines 1756-1778):
Math.min(count, 8) items. -/
def createMockResults (platform query : String) (count : Nat) :
    PlatformResult :=
  let results := (List.range (min count 8)).map (fun i =>
    ({ id := ("mock_") ++ platform ++ ("_") ++ toString i,
       platform := platform } : ResultItem))
  { success := true,
    data := some
      { results := results,
        total := some results.length,
        platform := platform,
        note := some (("Mock data for ") ++ platform) } }

/-- Successful Twitter envelope of the final variant (src/server.js
lines 1738-1750). -/
def twitterSuccess (ids : List String) : PlatformResult :=
  let results := ids.map (fun tid =>
    ({ id := tid, platform := ("twitter") } : ResultItem))
  { success := true,
    data := some
      { results := results,
        total := some results.length,
        platform := ("twitter") } }

/-- Message of the SyntaxError raised when response.json() fails to
parse; the concrete text is environment-defined and never inspected. -/
def jsonParseErrorMsg : String := ("Unexpected token in JSON")

/-- Observable state of one run of the final variant makeTwitterSearch:
the value the promise settles with (Except.error models a rejection),
the key-manager state afterwards, and the max_results parameter of
every fetch performed. -/
structure TwitterRunF where
  result : Except String PlatformResult
  km : KeyManager
  maxResultsParams : List Nat
  deriving Repr

/-- Retry loop of the final variant makeTwitterSearch (src/server.js
lines 1707-1753).  This variant has no try/catch, so fetch errors,
parse errors and non-2xx statuses reject the promise; exhausting all
keys on 429/401 also rejects.  Fuel 0 is the loop fallthrough, which
reaches the trailing throw of line 1752. -/
def twitterLoopF (keys : ApiKeys) (query : String) (count : Nat)
    (oracle : Nat → FetchOutcome) (km : KeyManager) (attempt fuel : Nat) :
    TwitterRunF :=
  match fuel with
  | 0 => ⟨.error ("All Twitter API attempts failed."), km, []⟩
  | fuel + 1 =>
    match KeyManager.getKey keys km .twitter with
    | none => ⟨.error ("No valid Twitter API keys configured."), km, []⟩
    | some _ =>
      match oracle attempt with
      | .thrown msg => ⟨.error msg, km, [min count 100]⟩
      | .resp status body =>
        if status == 429 || status == 401 then
          let km2 := km.rotateKey keys .twitter
          if fuel = 0 then
            ⟨.error (("Twitter API Error: ") ++ toString status ++
              (" - All keys failed.")), km2, [min count 100]⟩
          else
            let r := twitterLoopF keys query count oracle km2 (attempt + 1) fuel
            ⟨r.result, r.km, (min count 100) :: r.maxResultsParams⟩
        else if statusOk status = false then
          ⟨.error (("Twitter API Error: ") ++ toString status), km,
           [min count 100]⟩
        else
          match body with
          | none => ⟨.error jsonParseErrorMsg, km, [min count 100]⟩
          | some ids => ⟨.ok (twitterSuccess ids), km, [min count 100]⟩

/-- makeTwitterSearch of the final variant: maxRetries is
apiKeys.twitter.length || 1. -/
def makeTwitterSearch (keys : ApiKeys) (km : KeyManager) (query : String)
    (count : Nat) (oracle : Nat → FetchOutcome) : TwitterRunF :=
  twitterLoopF keys query count oracle km 0
    (if keys.twitter.length = 0 then 1 else keys.twitter.length)

/-- Successful Telegram envelope of the final variant (src/server.js
lines 1679-1699). -/
def telegramSuccess (ids : List String) : PlatformResult :=
  let results := ids.map (fun mid =>
    ({ id := ("telegram_") ++ mid, platform := ("telegram") } : ResultItem))
  { success := true,
    data := some
      { results := results,
        total := some results.length,
        platform := ("telegram") } }

/-- makeTelegramSearch of the final variant (src/server.js lines
1661-1704): throws when the client is not connected or the invocation
fails. -/
def makeTelegramSearch (connected : Bool)
    (oracle : Part003.TelegramOutcome) : Except String PlatformResult :=
  if connected = false then
    .error ("Telegram client is not connected. Please check server logs.")
  else
    match oracle with
    | .throws => .error ("Failed to perform search on Telegram.")
    | .msgs ids => .ok (telegramSuccess ids)

/-- Value returned by the map callback of searchPromises in the final
variant (src/server.js lines 1790-1799): twitter and telegram yield
promises; every other identifier yields the plain object
createMockResults returns synchronously. -/
inductive SFPromise
  | promise (r : Except String PlatformResult)
  | plain (r : PlatformResult)
  deriving Repr

/-- The switch of the final variant dispatcher. -/
def sfDispatch (keys : ApiKeys) (km : KeyManager)
    (twOracle : Nat → FetchOutcome) (connected : Bool)
    (tgOracle : Part003.TelegramOutcome) (query : String) (count : Nat)
    (p : String) : SFPromise :=
  match p with
  | "twitter" => .promise (makeTwitterSearch keys km query count twOracle).result
  | "telegram" => .promise (makeTelegramSearch connected tgOracle)
  | _ => .plain (createMockResults p query count)

/-- The p.catch handler of src/server.js line 1804: a rejection becomes
a failure record whose data.platform is e.platform || "unknown"; the
Error values these handlers throw never carry a platform property, so
the fallback "unknown" is always used. -/
def catchValue : Except String PlatformResult → PlatformResult
  | .ok r => r
  | .error msg =>
    { success := false, error := some msg,
      data := some { platform := ("unknown") } }

/-- Detects a plain (non-promise) element among searchPromises; calling
p.catch on such a value raises TypeError inside the try block. -/
def sfHasPlain (promises : List SFPromise) : Bool :=
  promises.any (fun pr =>
    match pr with
    | .plain _ => true
    | .promise _ => false)

/-- The results.forEach aggregation of the final variant (src/server.js
lines 1811-1821): entries are keyed by result.data.platform, results
without a data field are skipped, and successful results add their
data.total (always present on success envelopes) to totalResults. -/
def sfAggregate (values : List PlatformResult) :
    List (String × PlatformResult) × Nat :=
  values.foldl (fun acc r =>
    match r.data with
    | some d =>
      (upsert acc.1 d.platform r,
       if r.success then acc.2 + d.total.getD 0 else acc.2)
    | none => acc) ([], 0)

/-- The /api/search/multi handler of the final server.js variant (lines
1783-1832).  When any requested platform resolves to a plain mock
object, the expression p.catch throws TypeError and the handler answers
500; all handlers have been invoked by then. -/
def multiEndpoint (keys : ApiKeys) (km : KeyManager)
    (twOracle : Nat → FetchOutcome) (connected : Bool)
    (tgOracle : Part003.TelegramOutcome) (query : Option String)
    (platforms : Option (List String)) (count : Nat) : MultiResponse :=
  if jsFalsy query then
    { status := 400, success := false,
      message := some ("Query is required") }
  else
    let ps := platforms.getD []
    let promises := ps.map
      (sfDispatch keys km twOracle connected tgOracle (query.getD ("")) count)
    if sfHasPlain promises then
      { status := 500, success := false,
        message := some ("p.catch is not a function"),
        dispatched := ps.length }
    else
      let values := promises.map (fun pr =>
        match pr with
        | .promise e => catchValue e
        | .plain r => r)
      let et := sfAggregate values
      { status := 200, success := true, entries := et.1, total := et.2,
        dispatched := ps.length }

end ServerFinal

namespace ServerV2

/-- createMockResults of the Railway variant (src/server.js lines
1167-1202): Math.min(count, 20) items. -/
def createMockResults (platform query : String) (count : Nat) :
    PlatformResult :=
  let results := (List.range (min count 20)).map (fun i =>
    ({ id := ("mock_") ++ platform ++ ("_") ++ toString i,
       platform := platform } : ResultItem))
  { success := true,
    data := some
      { results := results,
        total := some results.length,
        platform := platform,
        note := some (("Mock data for ") ++ platform ++
          (" - Real API integration pending")) } }

/-- The max_results request parameter of the Railway variant Twitter
calls (src/server.js lines 961-964 and 1121-1124):
Math.min(count, 100). -/
def twitterMaxResults (count : Nat) : Nat := min count 100

/-- Per-platform computation of the Railway variant searchPromises
(src/server.js lines 1056-1094): the switch routes twitter to the live
search only when a non-placeholder bearer token is configured, and
every other identifier, the supported stubs and unknown ones alike,
to createMockResults; a throwing twitter call is caught into an error
entry with a top-level platform field. -/
def dispatch (twitterConfigured : Bool)
    (twitterOutcome : Except String PlatformResult) (query : String)
    (count : Nat) (p : String) : PlatformResult :=
  match p with
  | "twitter" =>
    if twitterConfigured then
      match twitterOutcome with
      | .ok r => r
      | .error m =>
        { success := false, error := some m, platform := some ("twitter") }
    else createMockResults p query count
  | _ => createMockResults p query count

end ServerV2

/-- Envelope invariant a successful platform result is expected to
satisfy: its data is present, data.total equals the length of
data.results, and data.platform names the producing platform. -/
def goodEnvelope (p : String) (r : PlatformResult) : Prop :=
  r.success = true →
  ∃ d, r.data = some d ∧ d.total = some d.results.length ∧ d.platform = p

theorem index_setIndex_self (m : KeyManager) (s : Service) (n : Nat) :
    (m.setIndex s n).index s = n := by
  cases s <;> rfl

theorem index_setIndex_of_ne (m : KeyManager) (s s' : Service) (n : Nat)
    (h : s ≠ s') : (m.setIndex s' n).index s = m.index s := by
  cases s <;> cases s' <;>
    simp_all [KeyManager.setIndex, KeyManager.index]

theorem rotateKey_index_self (keys : ApiKeys) (m : KeyManager) (s : Service)
    (h : 2 ≤ (keys.get s).length) :
    (m.rotateKey keys s).index s = (m.index s + 1) % (keys.get s).length := by
  unfold KeyManager.rotateKey
  rw [if_neg (by omega)]
  exact index_setIndex_self m s _

theorem rotateKey_noop (keys : ApiKeys) (m : KeyManager) (s : Service)
    (h : (keys.get s).length < 2) : m.rotateKey keys s = m := by
  unfold KeyManager.rotateKey
  rw [if_pos h]

theorem rotateKey_index_of_ne (keys : ApiKeys) (m : KeyManager)
    (s s' : Service) (h : s ≠ s') :
    (m.rotateKey keys s').index s = m.index s := by
  unfold KeyManager.rotateKey
  split
  · rfl
  · exact index_setIndex_of_ne m s s' _ h

theorem rotateKey_index_lt (keys : ApiKeys) (m : KeyManager) (s : Service)
    (hm : m.index s < (keys.get s).length) :
    (m.rotateKey keys s).index s < (keys.get s).length := by
  unfold KeyManager.rotateKey
  split
  · exact hm
  · rw [index_setIndex_self]
    exact Nat.mod_lt _ (by omega)

theorem rotateKey_iterate (keys : ApiKeys) (s : Service) (m : KeyManager)
    (h2 : 2 ≤ (keys.get s).length)
    (hidx : m.index s < (keys.get s).length) : ∀ n : Nat,
    ((fun x => KeyManager.rotateKey keys x s)^[n] m).index s
      = (m.index s + n) % (keys.get s).length := by
  intro n
  induction n with
  | zero =>
    simpa using (Nat.mod_eq_of_lt hidx).symm
  | succ k ih =>
    rw [Function.iterate_succ_apply']
    rw [rotateKey_index_self keys _ s h2, ih]
    rw [Nat.mod_add_mod, Nat.add_assoc]

/-- C1: for a service with N >= 2 credentials, N consecutive rotateKey
calls return the rotation cursor to the index it held before the first
call. -/
theorem rotateKey_roundRobin_closure (keys : ApiKeys) (s : Service)
    (m : KeyManager) (h2 : 2 ≤ (keys.get s).length)
    (hidx : m.index s < (keys.get s).length) :
    ((fun x => KeyManager.rotateKey keys x s)^[(keys.get s).length] m).index s
      = m.index s := by
  rw [rotateKey_iterate keys s m h2 hidx]
  rw [Nat.add_mod_right]
  exact Nat.mod_eq_of_lt hidx

/-- Witness for C1: two rotations on a two-credential twitter pool
return the cursor to its initial position. -/
theorem rotateKey_roundRobin_closure_witness :
    2 ≤ ((ApiKeys.mk [] [] [("a"), ("b")]).get Service.twitter).length ∧
    ((fun x => KeyManager.rotateKey (ApiKeys.mk [] [] [("a"), ("b")]) x
      Service.twitter)^[2] KeyManager.init).index Service.twitter
      = KeyManager.init.index Service.twitter :=
  ⟨by decide,
   rotateKey_roundRobin_closure (ApiKeys.mk [] [] [("a"), ("b")])
     Service.twitter KeyManager.init (by decide) (by decide)⟩

/-- Counterexample for C2: the claim asserts the cursor lies in
[0, len(credentials)) for every service already at startup, but a
service with zero configured credentials has cursor 0, which is not
below a credential count of 0. -/
theorem rotation_cursor_out_of_range_without_credentials :
    ¬ (KeyManager.init.index Service.twitter
        < ((ApiKeys.mk [] [] []).get Service.twitter).length) := by
  decide

theorem run_index_lt (keys : ApiKeys) (s : Service)
    (h : 1 ≤ (keys.get s).length) : ∀ (ops : List KeyOp) (m : KeyManager),
    m.index s < (keys.get s).length →
    (ops.foldl (KeyManager.applyOp keys) m).index s < (keys.get s).length := by
  intro ops
  induction ops with
  | nil => intro m hm; simpa using hm
  | cons op rest ih =>
    intro m hm
    refine ih _ ?_
    cases op with
    | getK _ => exact hm
    | rotK s' =>
      show (m.rotateKey keys s').index s < (keys.get s).length
      by_cases hss : s = s'
      · subst hss
        exact rotateKey_index_lt keys m s hm
      · rw [rotateKey_index_of_ne keys m s s' hss]
        exact hm

/-- C2 (amended): for every service with at least one configured
credential, the rotation cursor stays in [0, len(credentials)) at
startup and after every sequence of getKey / rotateKey calls; rotateKey
advances the cursor by exactly one position modulo the credential count
and is a no-op when fewer than two credentials are configured.  (As
stated, the claim fails for zero-credential services, whose cursor is 0
at startup while the required range is empty.) -/
theorem rotation_cursor_invariant (keys : ApiKeys) (ops : List KeyOp)
    (s : Service) (h : 1 ≤ (keys.get s).length) :
    (KeyManager.run keys ops).index s < (keys.get s).length
    ∧ (∀ m : KeyManager, 2 ≤ (keys.get s).length →
        (m.rotateKey keys s).index s
          = (m.index s + 1) % (keys.get s).length)
    ∧ (∀ m : KeyManager, (keys.get s).length < 2 →
        m.rotateKey keys s = m) := by
  refine ⟨?_, ?_, ?_⟩
  · exact run_index_lt keys s h ops KeyManager.init (by
      show KeyManager.init.index s < (keys.get s).length
      cases s <;> simpa [KeyManager.index, KeyManager.init] using h)
  · intro m h2; exact rotateKey_index_self keys m s h2
  · intro m hlt; exact rotateKey_noop keys m s hlt

/-- Witness for C2 (amended): a concrete run over a two-credential pool
keeps the cursor in range. -/
theorem rotation_cursor_invariant_witness :
    1 ≤ ((ApiKeys.mk [] [] [("a"), ("b")]).get Service.twitter).length ∧
    (KeyManager.run (ApiKeys.mk [] [] [("a"), ("b")])
      [KeyOp.rotK Service.twitter, KeyOp.getK Service.twitter,
       KeyOp.rotK Service.twitter]).index Service.twitter
      < ((ApiKeys.mk [] [] [("a"), ("b")]).get Service.twitter).length :=
  ⟨by decide,
   (rotation_cursor_invariant (ApiKeys.mk [] [] [("a"), ("b")])
     [KeyOp.rotK Service.twitter, KeyOp.getK Service.twitter,
      KeyOp.rotK Service.twitter] Service.twitter (by decide)).1⟩

theorem getKey_isSome_of_lt (keys : ApiKeys) (m : KeyManager) (s : Service)
    (h : m.index s < (keys.get s).length) :
    ∃ k, KeyManager.getKey keys m s = some k := by
  unfold KeyManager.getKey
  rw [if_neg (by omega)]
  exact ⟨_, List.getElem?_eq_getElem h⟩

theorem getKey_none_of_empty (keys : ApiKeys) (m : KeyManager) (s : Service)
    (h : keys.get s = []) : KeyManager.getKey keys m s = none := by
  unfold KeyManager.getKey
  rw [if_pos (by rw [h]; rfl)]

namespace Part003

theorem twitterLoop_params_len (keys : ApiKeys) (query : String)
    (count : Nat) (oracle : Nat → FetchOutcome) : ∀ (fuel : Nat)
    (km : KeyManager) (attempt : Nat),
    (twitterLoop keys query count oracle km attempt
      fuel).maxResultsParams.length ≤ fuel := by
  intro fuel
  induction fuel with
  | zero => intro km attempt; simp [twitterLoop]
  | succ f ih =>
    intro km attempt
    rw [twitterLoop]
    repeat' split
    all_goals simp
    all_goals exact ih _ _

theorem twitterLoop_params_eq (keys : ApiKeys) (query : String)
    (count : Nat) (oracle : Nat → FetchOutcome) : ∀ (fuel : Nat)
    (km : KeyManager) (attempt : Nat),
    (twitterLoop keys query count oracle km attempt fuel).maxResultsParams
      = List.replicate
        (twitterLoop keys query count oracle km attempt
          fuel).maxResultsParams.length (min count 100) := by
  intro fuel
  induction fuel with
  | zero => intro km attempt; simp [twitterLoop]
  | succ f ih =>
    intro km attempt
    rw [twitterLoop]
    repeat' split
    all_goals simp [List.replicate_succ]
    all_goals exact ih _ _

theorem twitterLoop_result_isSome (keys : ApiKeys) (query : String)
    (count : Nat) (oracle : Nat → FetchOutcome) : ∀ (fuel : Nat)
    (km : KeyManager) (attempt : Nat), 1 ≤ fuel →
    ((twitterLoop keys query count oracle km attempt fuel).result).isSome
      = true := by
  intro fuel
  induction fuel with
  | zero => intro km attempt h; omega
  | succ f ih =>
    intro km attempt _
    rw [twitterLoop]
    repeat' split
    all_goals simp
    all_goals exact ih _ _ (by omega)

theorem twitterLoop_result_cases (keys : ApiKeys) (query : String)
    (count : Nat) (oracle : Nat → FetchOutcome) : ∀ (fuel : Nat)
    (km : KeyManager) (attempt : Nat) (pr : PlatformResult),
    (twitterLoop keys query count oracle km attempt fuel).result = some pr →
    pr = createMockResults ("twitter") query count
      ∨ ∃ ids, pr = twitterSuccess ids := by
  intro fuel
  induction fuel with
  | zero => intro km attempt pr hpr; simp [twitterLoop] at hpr
  | succ f ih =>
    intro km attempt pr hpr
    rw [twitterLoop] at hpr
    repeat' split at hpr
    all_goals simp only [Option.some.injEq] at hpr
    all_goals first
      | exact absurd hpr (by simp)
      | exact Or.inl hpr.symm
      | exact Or.inr ⟨_, hpr.symm⟩
      | exact ih _ _ _ hpr

theorem twitterLoop_exhaust (keys : ApiKeys) (query : String) (count : Nat)
    (oracle : Nat → FetchOutcome)
    (hfail : ∀ i, isAuthFail (oracle i) = true) : ∀ (fuel : Nat)
    (km : KeyManager) (attempt : Nat), 1 ≤ fuel →
    km.index Service.twitter < (keys.get Service.twitter).length →
    (twitterLoop keys query count oracle km attempt fuel).result
      = some (createMockResults ("twitter") query count) := by
  intro fuel
  induction fuel with
  | zero => intro km attempt h; omega
  | succ f ih =>
    intro km attempt _ hidx
    obtain ⟨k, hk⟩ := getKey_isSome_of_lt keys km Service.twitter hidx
    have hfa := hfail attempt
    rw [twitterLoop]
    repeat' split
    all_goals try simp_all [isAuthFail]
    all_goals
      exact ih _ _ (by omega) (rotateKey_index_lt keys km Service.twitter hidx)

theorem twitterLoop_fetches_pos (keys : ApiKeys) (query : String)
    (count : Nat) (oracle : Nat → FetchOutcome) (km : KeyManager)
    (attempt f : Nat)
    (hk : (KeyManager.getKey keys km Service.twitter).isSome = true) :
    1 ≤ (twitterLoop keys query count oracle km attempt
      (f + 1)).maxResultsParams.length := by
  rw [twitterLoop]
  repeat' split
  all_goals simp_all

theorem makeTwitterSearch_fetches_le (keys : ApiKeys) (km : KeyManager)
    (query : String) (count : Nat) (oracle : Nat → FetchOutcome) :
    (makeTwitterSearch keys km query count oracle).maxResultsParams.length
      ≤ keys.twitter.length := by
  rcases Nat.eq_zero_or_pos keys.twitter.length with h | h
  · have hn : KeyManager.getKey keys km Service.twitter = none := by
      unfold KeyManager.getKey
      rw [if_pos (by simpa [ApiKeys.get] using h)]
    simp [makeTwitterSearch, h, twitterLoop, hn]
  · have hm : max keys.twitter.length 1 = keys.twitter.length := by omega
    unfold makeTwitterSearch
    rw [hm]
    exact twitterLoop_params_len keys query count oracle _ km 0

theorem aiLoop_fetches_le (keys : ApiKeys) (query : String)
    (oracle : Nat → AiFetchOutcome) : ∀ (fuel : Nat) (km : KeyManager)
    (attempt : Nat),
    (aiLoop keys query oracle km attempt fuel).fetches ≤ fuel := by
  intro fuel
  induction fuel with
  | zero => intro km attempt; simp [aiLoop]
  | succ f ih =>
    intro km attempt
    rw [aiLoop]
    repeat' split
    all_goals simp
    all_goals exact ih _ _

theorem aiLoop_reply_isSome (keys : ApiKeys) (query : String)
    (oracle : Nat → AiFetchOutcome) : ∀ (fuel : Nat) (km : KeyManager)
    (attempt : Nat), 1 ≤ fuel →
    ((aiLoop keys query oracle km attempt fuel).reply).isSome = true := by
  intro fuel
  induction fuel with
  | zero => intro km attempt h; omega
  | succ f ih =>
    intro km attempt _
    rw [aiLoop]
    repeat' split
    all_goals simp
    all_goals exact ih _ _ (by omega)

theorem aiLoop_fetches_pos (keys : ApiKeys) (query : String)
    (oracle : Nat → AiFetchOutcome) (km : KeyManager) (attempt f : Nat)
    (hk : (KeyManager.getKey keys km Service.openai).isSome = true) :
    1 ≤ (aiLoop keys query oracle km attempt (f + 1)).fetches := by
  rw [aiLoop]
  repeat' split
  all_goals simp_all

theorem aiLoop_exhaust (keys : ApiKeys) (query : String)
    (oracle : Nat → AiFetchOutcome)
    (hfail : ∀ i, isAiAuthFail (oracle i) = true) : ∀ (fuel : Nat)
    (km : KeyManager) (attempt : Nat), 1 ≤ fuel →
    km.index Service.openai < (keys.get Service.openai).length →
    (aiLoop keys query oracle km attempt fuel).reply
      = some { status := 200, success := true,
               analysis := some (aiFallbackRateLimited query) } := by
  intro fuel
  induction fuel with
  | zero => intro km attempt h; omega
  | succ f ih =>
    intro km attempt _ hidx
    obtain ⟨k, hk⟩ := getKey_isSome_of_lt keys km Service.openai hidx
    have hfa := hfail attempt
    rw [aiLoop]
    repeat' split
    all_goals try simp_all [isAiAuthFail]
    all_goals
      exact ih _ _ (by omega) (rotateKey_index_lt keys km Service.openai hidx)

end Part003

theorem upsert_of_not_key (m : List (String × PlatformResult)) (k : String)
    (v : PlatformResult) (h : k ∉ m.map Prod.fst) :
    upsert m k v = m ++ [(k, v)] := by
  unfold upsert
  rw [if_neg]
  intro hc
  rw [List.any_eq_true] at hc
  obtain ⟨kv, hkv, hbeq⟩ := hc
  rw [beq_iff_eq] at hbeq
  exact h (hbeq ▸ List.mem_map_of_mem Prod.fst hkv)

theorem findEntry_map (g : String → PlatformResult) (q : String) :
    ∀ ps : List String, q ∈ ps →
    findEntry q (ps.map (fun p => (p, g p))) = some (g q) := by
  intro ps
  induction ps with
  | nil => intro hq; cases hq
  | cons p rest ih =>
    intro hq
    by_cases hpq : p = q
    · subst hpq
      simp [findEntry]
    · have hmem : q ∈ rest := by
        rcases List.mem_cons.mp hq with h | h
        · exact absurd h.symm hpq
        · exact h
      unfold findEntry at *
      simp only [List.map_cons, List.find?_cons]
      have hbq : (p == q) = false := by simpa using hpq
      rw [hbq]
      exact ih hmem

namespace Part003

theorem aggregate_go (pairs : List (String × Option PlatformResult)) :
    ∀ (acc : List (String × PlatformResult)) (t : Nat),
    (∀ x ∈ pairs.map Prod.fst, x ∉ acc.map Prod.fst) →
    (pairs.map Prod.fst).Nodup →
    pairs.foldl (fun acc2 pv =>
      (upsert acc2.1 pv.1 (settleValue pv.1 pv.2),
       acc2.2 + contribution (settleValue pv.1 pv.2))) (acc, t)
    = (acc ++ pairs.map (fun pv => (pv.1, settleValue pv.1 pv.2)),
       t + (pairs.map
         (fun pv => contribution (settleValue pv.1 pv.2))).sum) := by
  induction pairs with
  | nil => intro acc t h hn; simp
  | cons pv rest ih =>
    intro acc t h hn
    simp only [List.map_cons, List.nodup_cons] at hn
    simp only [List.foldl_cons]
    rw [upsert_of_not_key _ _ _ (h pv.1 (by simp))]
    rw [ih (acc ++ [(pv.1, settleValue pv.1 pv.2)])
      (t + contribution (settleValue pv.1 pv.2)) ?_ hn.2]
    · simp [Nat.add_assoc]
    · intro x hx
      simp only [List.map_append, List.mem_append, List.map_cons,
        List.map_nil, List.mem_singleton]
      rintro (hacc | rfl)
      · exact h x (by simp [hx]) hacc
      · exact hn.1 hx

theorem aggregate_eq (pairs : List (String × Option PlatformResult))
    (hn : (pairs.map Prod.fst).Nodup) :
    aggregate pairs
      = (pairs.map (fun pv => (pv.1, settleValue pv.1 pv.2)),
         (pairs.map
           (fun pv => contribution (settleValue pv.1 pv.2))).sum) := by
  unfold aggregate
  simpa using aggregate_go pairs [] 0 (by simp) hn

theorem contribution_eq_term (r : PlatformResult) :
    (if r.success then ((r.data.bind SearchData.total).getD 0) else 0)
      = contribution r := by
  unfold contribution
  cases hd : r.data with
  | none => cases hs : r.success <;> simp [hd, hs]
  | some d => cases hs : r.success <;> simp [hd, hs]

theorem respSum_map (pairs : List (String × Option PlatformResult)) :
    respSum (pairs.map (fun pv => (pv.1, settleValue pv.1 pv.2)))
      = (pairs.map
          (fun pv => contribution (settleValue pv.1 pv.2))).sum := by
  unfold respSum
  rw [List.map_map]
  congr 1
  refine List.map_congr_left ?_
  intro pv hpv
  exact contribution_eq_term (settleValue pv.1 pv.2)

end Part003

namespace ServerFinal

theorem twitterLoopF_params_len (keys : ApiKeys) (query : String)
    (count : Nat) (oracle : Nat → FetchOutcome) : ∀ (fuel : Nat)
    (km : KeyManager) (attempt : Nat),
    (twitterLoopF keys query count oracle km attempt
      fuel).maxResultsParams.length ≤ fuel := by
  intro fuel
  induction fuel with
  | zero => intro km attempt; simp [twitterLoopF]
  | succ f ih =>
    intro km attempt
    rw [twitterLoopF]
    repeat' split
    all_goals simp
    all_goals exact ih _ _

theorem twitterLoopF_params_eq (keys : ApiKeys) (query : String)
    (count : Nat) (oracle : Nat → FetchOutcome) : ∀ (fuel : Nat)
    (km : KeyManager) (attempt : Nat),
    (twitterLoopF keys query count oracle km attempt fuel).maxResultsParams
      = List.replicate
        (twitterLoopF keys query count oracle km attempt
          fuel).maxResultsParams.length (min count 100) := by
  intro fuel
  induction fuel with
  | zero => intro km attempt; simp [twitterLoopF]
  | succ f ih =>
    intro km attempt
    rw [twitterLoopF]
    repeat' split
    all_goals simp [List.replicate_succ]
    all_goals exact ih _ _

theorem twitterLoopF_ok_cases (keys : ApiKeys) (query : String)
    (count : Nat) (oracle : Nat → FetchOutcome) : ∀ (fuel : Nat)
    (km : KeyManager) (attempt : Nat) (pr : PlatformResult),
    (twitterLoopF keys query count oracle km attempt fuel).result
        = Except.ok pr →
    ∃ ids, pr = twitterSuccess ids := by
  intro fuel
  induction fuel with
  | zero => intro km attempt pr hpr; simp [twitterLoopF] at hpr
  | succ f ih =>
    intro km attempt pr hpr
    rw [twitterLoopF] at hpr
    repeat' split at hpr
    all_goals simp only [Except.ok.injEq] at hpr
    all_goals first
      | exact absurd hpr (by simp)
      | exact ⟨_, hpr.symm⟩
      | exact ih _ _ _ hpr

theorem twitterLoopF_exhaust (keys : ApiKeys) (query : String) (count : Nat)
    (oracle : Nat → FetchOutcome)
    (hfail : ∀ i, isAuthFail (oracle i) = true) : ∀ (fuel : Nat)
    (km : KeyManager) (attempt : Nat),
    km.index Service.twitter < (keys.get Service.twitter).length →
    ∃ msg, (twitterLoopF keys query count oracle km attempt fuel).result
      = Except.error msg := by
  intro fuel
  induction fuel with
  | zero => intro km attempt hidx; exact ⟨_, rfl⟩
  | succ f ih =>
    intro km attempt hidx
    obtain ⟨k, hk⟩ := getKey_isSome_of_lt keys km Service.twitter hidx
    have hfa := hfail attempt
    rw [twitterLoopF]
    repeat' split
    all_goals try simp_all [isAuthFail]
    all_goals
      exact ih _ _ (rotateKey_index_lt keys km Service.twitter hidx)

end ServerFinal

namespace Part003

theorem makeTwitterSearch_fetches_pos (keys : ApiKeys) (km : KeyManager)
    (query : String) (count : Nat) (oracle : Nat → FetchOutcome)
    (hk : (KeyManager.getKey keys km Service.twitter).isSome = true) :
    1 ≤ (makeTwitterSearch keys km query count
      oracle).maxResultsParams.length := by
  unfold makeTwitterSearch
  obtain ⟨f, hf⟩ : ∃ f, max keys.twitter.length 1 = f + 1 :=
    ⟨max keys.twitter.length 1 - 1, by
      have := Nat.le_max_right keys.twitter.length 1
      omega⟩
  rw [hf]
  exact twitterLoop_fetches_pos keys query count oracle km 0 f hk

theorem aiEnhance_fetches_le (keys : ApiKeys) (km : KeyManager)
    (text : Option String) (query service : String)
    (oracle : Nat → AiFetchOutcome) :
    (aiEnhance keys km text query service oracle).fetches
      ≤ keys.openai.length := by
  unfold aiEnhance
  split
  · simp
  · split
    · simp
    · rcases Nat.eq_zero_or_pos keys.openai.length with h | h
      · have hn : KeyManager.getKey keys km Service.openai = none := by
          unfold KeyManager.getKey
          rw [if_pos (by simpa [ApiKeys.get] using h)]
        simp [h, aiLoop, hn]
      · have hm : max keys.openai.length 1 = keys.openai.length := by omega
        rw [hm]
        exact aiLoop_fetches_le keys query oracle _ km 0

theorem aiEnhance_reply_isSome (keys : ApiKeys) (km : KeyManager)
    (text : Option String) (query service : String)
    (oracle : Nat → AiFetchOutcome) :
    ((aiEnhance keys km text query service oracle).reply).isSome = true := by
  unfold aiEnhance
  split
  · simp
  · split
    · simp
    · exact aiLoop_reply_isSome keys query oracle _ km 0
        (Nat.le_max_right keys.openai.length 1)

theorem aiEnhance_fetches_pos (keys : ApiKeys) (km : KeyManager)
    (text : String) (query : String) (oracle : Nat → AiFetchOutcome)
    (htext : isBlankJS (some text) = false)
    (hk : (KeyManager.getKey keys km Service.openai).isSome = true) :
    1 ≤ (aiEnhance keys km (some text) query ("openai") oracle).fetches := by
  unfold aiEnhance
  rw [if_neg (by simp [htext]), if_neg (by simp)]
  obtain ⟨f, hf⟩ : ∃ f, max keys.openai.length 1 = f + 1 :=
    ⟨max keys.openai.length 1 - 1, by
      have := Nat.le_max_right keys.openai.length 1
      omega⟩
  rw [hf]
  exact aiLoop_fetches_pos keys query oracle km 0 f hk

theorem aiEnhance_exhaust (keys : ApiKeys) (km : KeyManager)
    (text : String) (query : String) (oracle : Nat → AiFetchOutcome)
    (htext : isBlankJS (some text) = false)
    (hfail : ∀ i, isAiAuthFail (oracle i) = true)
    (hidx : km.index Service.openai < (keys.get Service.openai).length) :
    (aiEnhance keys km (some text) query ("openai") oracle).reply
      = some { status := 200, success := true,
               analysis := some (aiFallbackRateLimited query) } := by
  unfold aiEnhance
  rw [if_neg (by simp [htext]), if_neg (by simp)]
  exact aiLoop_exhaust keys query oracle hfail _ km 0
    (Nat.le_max_right keys.openai.length 1) hidx

end Part003

namespace ServerFinal

theorem makeTwitterSearchF_fetches_le (keys : ApiKeys) (km : KeyManager)
    (query : String) (count : Nat) (oracle : Nat → FetchOutcome) :
    (makeTwitterSearch keys km query count oracle).maxResultsParams.length
      ≤ keys.twitter.length := by
  unfold makeTwitterSearch
  rcases Nat.eq_zero_or_pos keys.twitter.length with h | h
  · have hn : KeyManager.getKey keys km Service.twitter = none := by
      unfold KeyManager.getKey
      rw [if_pos (by simpa [ApiKeys.get] using h)]
    simp [h, twitterLoopF, hn]
  · rw [if_neg (by omega)]
    exact twitterLoopF_params_len keys query count oracle _ km 0

end ServerFinal

/-- C3: for a service with zero configured credentials, getKey returns
null; the part_003 Twitter handler then performs no outbound call and
resolves with mock data, and the part_003 AI handler performs no
outbound call and answers with the canned no-key fallback analysis. -/
theorem zero_credentials_no_outbound (keys : ApiKeys) (km : KeyManager)
    (query : String) (count : Nat) (oracle : Nat → FetchOutcome)
    (text : String) (aiOracle : Nat → Part003.AiFetchOutcome)
    (htw : keys.twitter = []) (hai : keys.openai = [])
    (htext : isBlankJS (some text) = false) :
    KeyManager.getKey keys km Service.twitter = none
    ∧ KeyManager.getKey keys km Service.openai = none
    ∧ Part003.makeTwitterSearch keys km query count oracle
        = ⟨some (Part003.createMockResults ("twitter") query count), km, []⟩
    ∧ Part003.aiEnhance keys km (some text) query ("openai") aiOracle
        = ⟨some { status := 200, success := true,
                  analysis := some (Part003.aiFallbackNoKey query) },
           km, 0⟩ := by
  have h1 : KeyManager.getKey keys km Service.twitter = none :=
    getKey_none_of_empty keys km Service.twitter (by simpa [ApiKeys.get])
  have h2 : KeyManager.getKey keys km Service.openai = none :=
    getKey_none_of_empty keys km Service.openai (by simpa [ApiKeys.get])
  refine ⟨h1, h2, ?_, ?_⟩
  · unfold Part003.makeTwitterSearch
    rw [htw]
    simp [Part003.twitterLoop, h1]
  · unfold Part003.aiEnhance
    rw [if_neg (by simp [htext]), if_neg (by simp), hai]
    simp [Part003.aiLoop, h2]

/-- Witness for C3: with no configured credentials, the concrete
part_003 Twitter handler resolves with mock data, having fetched
nothing. -/
theorem zero_credentials_no_outbound_witness :
    Part003.makeTwitterSearch (ApiKeys.mk [] [] []) KeyManager.init ("q") 5
      (fun _ => FetchOutcome.thrown ("e"))
      = ⟨some (Part003.createMockResults ("twitter") ("q") 5),
         KeyManager.init, []⟩ :=
  (zero_credentials_no_outbound (ApiKeys.mk [] [] []) KeyManager.init ("q") 5
    (fun _ => FetchOutcome.thrown ("e")) ("t")
    (fun _ => Part003.AiFetchOutcome.thrown ("e")) rfl rfl (by decide)).2.2.1

/-- Counterexample for C4: in the final server.js variant, exhausting
every Twitter credential on 429 responses makes makeTwitterSearch
reject with an error instead of falling back to mock data, contrary to
the claim that search endpoints fall back to mock data on
exhaustion. -/
theorem serverFinal_twitter_exhaustion_rejects :
    (ServerFinal.makeTwitterSearch (ApiKeys.mk [] [] [("k1")])
      KeyManager.init ("q") 10 (fun _ => FetchOutcome.resp 429 none)).result
      = Except.error ("Twitter API Error: 429 - All keys failed.") := by
  rfl

/-- C4 (amended): every key-rotation retry loop performs at most
len(credentials) outbound attempts, at least one when a credential is
available at the cursor, and always terminates with a definite
response; on exhaustion (every attempt answered 429/401) the part_003
Twitter search falls back to mock data and the part_003 AI endpoint
returns the canned fallback analysis, while the final server.js
makeTwitterSearch instead rejects with an error, which its multi
dispatcher captures per platform. -/
theorem retry_loops_bounded (keys : ApiKeys) (km : KeyManager)
    (query text : String) (count : Nat) (twOracle : Nat → FetchOutcome)
    (aiOracle : Nat → Part003.AiFetchOutcome)
    (htext : isBlankJS (some text) = false) :
    (Part003.makeTwitterSearch keys km query count
        twOracle).maxResultsParams.length ≤ keys.twitter.length
    ∧ ((KeyManager.getKey keys km Service.twitter).isSome = true →
        1 ≤ (Part003.makeTwitterSearch keys km query count
          twOracle).maxResultsParams.length)
    ∧ ((Part003.makeTwitterSearch keys km query count
        twOracle).result).isSome = true
    ∧ ((∀ i, isAuthFail (twOracle i) = true) →
        km.index Service.twitter < keys.twitter.length →
        (Part003.makeTwitterSearch keys km query count twOracle).result
          = some (Part003.createMockResults ("twitter") query count))
    ∧ (Part003.aiEnhance keys km (some text) query ("openai")
        aiOracle).fetches ≤ keys.openai.length
    ∧ ((KeyManager.getKey keys km Service.openai).isSome = true →
        1 ≤ (Part003.aiEnhance keys km (some text) query ("openai")
          aiOracle).fetches)
    ∧ ((Part003.aiEnhance keys km (some text) query ("openai")
        aiOracle).reply).isSome = true
    ∧ ((∀ i, Part003.isAiAuthFail (aiOracle i) = true) →
        km.index Service.openai < keys.openai.length →
        (Part003.aiEnhance keys km (some text) query ("openai")
          aiOracle).reply
          = some { status := 200, success := true,
                   analysis := some (Part003.aiFallbackRateLimited query) })
    ∧ (ServerFinal.makeTwitterSearch keys km query count
        twOracle).maxResultsParams.length ≤ keys.twitter.length
    ∧ ((∀ i, isAuthFail (twOracle i) = true) →
        km.index Service.twitter < keys.twitter.length →
        ∃ msg, (ServerFinal.makeTwitterSearch keys km query count
          twOracle).result = Except.error msg) := by
  refine ⟨Part003.makeTwitterSearch_fetches_le keys km query count twOracle,
    Part003.makeTwitterSearch_fetches_pos keys km query count twOracle,
    ?_, ?_,
    Part003.aiEnhance_fetches_le keys km (some text) query ("openai") aiOracle,
    Part003.aiEnhance_fetches_pos keys km text query aiOracle htext,
    Part003.aiEnhance_reply_isSome keys km (some text) query ("openai")
      aiOracle,
    fun hfail hidx => Part003.aiEnhance_exhaust keys km text query aiOracle
      htext hfail hidx,
    ServerFinal.makeTwitterSearchF_fetches_le keys km query count twOracle,
    fun hfail hidx => ServerFinal.twitterLoopF_exhaust keys query count
      twOracle hfail _ km 0 hidx⟩
  · exact Part003.twitterLoop_result_isSome keys query count twOracle _ km 0
      (Nat.le_max_right keys.twitter.length 1)
  · intro hfail hidx
    exact Part003.twitterLoop_exhaust keys query count twOracle hfail _ km 0
      (Nat.le_max_right keys.twitter.length 1) hidx

/-- Witness for C4 (amended): a single-credential pool whose only
attempt is rate limited makes the concrete part_003 Twitter search fall
back to mock data. -/
theorem retry_loops_bounded_witness :
    (Part003.makeTwitterSearch (ApiKeys.mk [] [] [("k1")]) KeyManager.init
      ("q") 10 (fun _ => FetchOutcome.resp 429 none)).result
      = some (Part003.createMockResults ("twitter") ("q") 10) :=
  (retry_loops_bounded (ApiKeys.mk [] [] [("k1")]) KeyManager.init ("q")
    ("t") 10 (fun _ => FetchOutcome.resp 429 none)
    (fun _ => Part003.AiFetchOutcome.resp 429 none) (by decide)).2.2.2.1
    (fun _ => rfl) (by decide)

/-- C9: every live Twitter path sends max_results = Math.min(count, 100)
on each fetch it performs, and each mock generator produces exactly
Math.min(count, cap) items, with cap 10 (part_003), 8 (final variant)
and 20 (Railway variant). -/
theorem result_count_caps (keys : ApiKeys) (km : KeyManager)
    (query platform : String) (count : Nat)
    (oracle : Nat → FetchOutcome) :
    ((Part003.makeTwitterSearch keys km query count oracle).maxResultsParams
      = List.replicate (Part003.makeTwitterSearch keys km query count
          oracle).maxResultsParams.length (min count 100))
    ∧ ((ServerFinal.makeTwitterSearch keys km query count
          oracle).maxResultsParams
      = List.replicate (ServerFinal.makeTwitterSearch keys km query count
          oracle).maxResultsParams.length (min count 100))
    ∧ ServerV2.twitterMaxResults count = min count 100
    ∧ min count 100 ≤ 100
    ∧ ((Part003.createMockResults platform query count).data.map
        (fun d => d.results.length) = some (min count 10))
    ∧ min count 10 ≤ 10
    ∧ ((ServerFinal.createMockResults platform query count).data.map
        (fun d => d.results.length) = some (min count 8))
    ∧ min count 8 ≤ 8
    ∧ ((ServerV2.createMockResults platform query count).data.map
        (fun d => d.results.length) = some (min count 20))
    ∧ min count 20 ≤ 20 := by
  refine ⟨Part003.twitterLoop_params_eq keys query count oracle _ km 0,
    ServerFinal.twitterLoopF_params_eq keys query count oracle _ km 0,
    rfl, Nat.min_le_right count 100,
    by simp [Part003.createMockResults],
    Nat.min_le_right count 10,
    by simp [ServerFinal.createMockResults],
    Nat.min_le_right count 8,
    by simp [ServerV2.createMockResults],
    Nat.min_le_right count 20⟩

/-- C10: every success envelope any handler produces satisfies
data.total = length(data.results) and data.platform names the producing
platform. -/
theorem success_envelope_invariant (keys : ApiKeys) (km : KeyManager)
    (query platform : String) (count : Nat) (oracle : Nat → FetchOutcome)
    (connected : Bool) (tgOracle : Part003.TelegramOutcome) :
    goodEnvelope platform (Part003.createMockResults platform query count)
    ∧ goodEnvelope platform
        (ServerFinal.createMockResults platform query count)
    ∧ goodEnvelope platform (ServerV2.createMockResults platform query count)
    ∧ (∀ pr, (Part003.makeTwitterSearch keys km query count oracle).result
          = some pr → goodEnvelope ("twitter") pr)
    ∧ goodEnvelope ("telegram")
        (Part003.makeTelegramSearch connected tgOracle query count)
    ∧ (∀ pr, (ServerFinal.makeTwitterSearch keys km query count
          oracle).result = Except.ok pr → goodEnvelope ("twitter") pr)
    ∧ (∀ pr, ServerFinal.makeTelegramSearch connected tgOracle
          = Except.ok pr → goodEnvelope ("telegram") pr) := by
  refine ⟨fun _ => ⟨_, rfl, rfl, rfl⟩, fun _ => ⟨_, rfl, rfl, rfl⟩,
    fun _ => ⟨_, rfl, rfl, rfl⟩, ?_, ?_, ?_, ?_⟩
  · intro pr hpr
    rcases Part003.twitterLoop_result_cases keys query count oracle _ km 0
      pr hpr with rfl | ⟨ids, rfl⟩
    · exact fun _ => ⟨_, rfl, rfl, rfl⟩
    · exact fun _ => ⟨_, rfl, rfl, rfl⟩
  · cases connected <;> cases tgOracle <;> exact fun _ => ⟨_, rfl, rfl, rfl⟩
  · intro pr hpr
    obtain ⟨ids, rfl⟩ :=
      ServerFinal.twitterLoopF_ok_cases keys query count oracle _ km 0 pr hpr
    exact fun _ => ⟨_, rfl, rfl, rfl⟩
  · intro pr hpr
    cases connected with
    | false => simp [ServerFinal.makeTelegramSearch] at hpr
    | true =>
      cases tgOracle with
      | throws => simp [ServerFinal.makeTelegramSearch] at hpr
      | msgs ids =>
        simp only [ServerFinal.makeTelegramSearch] at hpr
        rw [if_neg (by simp)] at hpr
        obtain rfl : ServerFinal.telegramSuccess ids = pr := by
          simpa using hpr
        exact fun _ => ⟨_, rfl, rfl, rfl⟩

/-- Witness for C10: the concrete part_003 mock envelope for eitaa
satisfies the invariant. -/
theorem success_envelope_invariant_witness :
    ∃ d, (Part003.createMockResults ("eitaa") ("q") 20).data = some d
      ∧ d.total = some d.results.length ∧ d.platform = ("eitaa") :=
  (success_envelope_invariant (ApiKeys.mk [] [] []) KeyManager.init ("q")
    ("eitaa") 20 (fun _ => FetchOutcome.thrown ("e")) false
    Part003.TelegramOutcome.throws).1 rfl

theorem dispatch_unsupported_aux (keys : ApiKeys) (km : KeyManager)
    (connected : Bool) (tgOracle : Part003.TelegramOutcome)
    (twOracle : Nat → FetchOutcome) (query : String) (count : Nat)
    (p : String) (hunsup : jsToLower p ∉ Part003.supportedPlatforms) :
    Part003.dispatch keys km connected tgOracle twOracle query count p
      = some { success := false,
               error := some (("Unsupported platform: ") ++ p),
               data := some { platform := p } } := by
  unfold Part003.dispatch
  simp only [Part003.supportedPlatforms, List.mem_cons, List.mem_singleton,
    List.not_mem_nil, or_false, not_or] at hunsup
  obtain ⟨h1, h2, h3, h4, h5, h6⟩ := hunsup
  split
  all_goals simp_all

theorem map_fst_keyed {α β : Type} (f : α → β) (l : List α) :
    (l.map (fun a => (a, f a))).map Prod.fst = l := by
  induction l with
  | nil => rfl
  | cons a t ih => simp [ih]

theorem multiEndpoint_open (handler : String → Part003.HandlerBehavior)
    (query : Option String) (ps : List String)
    (hq : isBlankJS query = false) (hne : ps.isEmpty = false) :
    Part003.multiEndpoint handler query (some ps)
      = { status := 200, success := true,
          entries := (Part003.aggregate (ps.map
            (fun p => (p, Part003.searchPromise p (handler p))))).1,
          total := (Part003.aggregate (ps.map
            (fun p => (p, Part003.searchPromise p (handler p))))).2,
          dispatched := ps.length } := by
  unfold Part003.multiEndpoint
  rw [if_neg (by simp [hq]), if_neg (by simp [Option.getD, hne])]
  rfl

theorem multiEndpoint_entries (handler : String → Part003.HandlerBehavior)
    (query : Option String) (ps : List String)
    (hq : isBlankJS query = false) (hne : ps.isEmpty = false)
    (hn : ps.Nodup) :
    (Part003.multiEndpoint handler query (some ps)).entries
      = ps.map (fun q =>
          (q, Part003.settleValue q (Part003.searchPromise q (handler q)))) := by
  rw [multiEndpoint_open handler query ps hq hne]
  show (Part003.aggregate _).1 = _
  rw [Part003.aggregate_eq _ (by rw [map_fst_keyed]; exact hn)]
  simp [List.map_map, Function.comp]

/-- C5 (amended): the part_003 /api/search/multi handler answers 400 to
every request whose query is absent, empty or whitespace-only, without
starting any platform search; the final server.js variant checks only
!query, so whitespace-only queries are not rejected there. -/
theorem multi_blank_query_rejected
    (handler : String → Part003.HandlerBehavior) (query : Option String)
    (platforms : Option (List String)) (hq : isBlankJS query = true) :
    (Part003.multiEndpoint handler query platforms).status = 400
    ∧ (Part003.multiEndpoint handler query platforms).dispatched = 0 := by
  unfold Part003.multiEndpoint
  rw [if_pos hq]
  exact ⟨rfl, rfl⟩

/-- Witness for C5 (amended): a whitespace-only query is rejected with
400 by the concrete part_003 handler and nothing is dispatched. -/
theorem multi_blank_query_rejected_witness :
    (Part003.multiEndpoint
      (fun _ => Part003.HandlerBehavior.returns none) (some ("   "))
      (some [("twitter")])).status = 400
    ∧ (Part003.multiEndpoint
      (fun _ => Part003.HandlerBehavior.returns none) (some ("   "))
      (some [("twitter")])).dispatched = 0 :=
  multi_blank_query_rejected (fun _ => Part003.HandlerBehavior.returns none)
    (some ("   ")) (some [("twitter")]) (by decide)

/-- Counterexample for C5: in the final server.js variant a
whitespace-only query passes the !query check, so the handler does not
answer 400 and it starts a platform search. -/
theorem serverFinal_whitespace_query_dispatched :
    (ServerFinal.multiEndpoint (ApiKeys.mk [] [] []) KeyManager.init
      (fun _ => FetchOutcome.thrown ("e")) false
      Part003.TelegramOutcome.throws (some (" ")) (some [("twitter")])
      10).status = 200
    ∧ (ServerFinal.multiEndpoint (ApiKeys.mk [] [] []) KeyManager.init
      (fun _ => FetchOutcome.thrown ("e")) false
      Part003.TelegramOutcome.throws (some (" ")) (some [("twitter")])
      10).dispatched = 1 := by
  exact ⟨rfl, rfl⟩

/-- Counterexample for C6: requesting the same platform twice makes the
part_003 handler add both handler totals into the top-level total while
the platforms object keeps a single entry, so total (20) differs from
the sum of the success entries (10). -/
theorem multi_total_duplicate_platform_mismatch :
    (Part003.multi (ApiKeys.mk [] [] []) KeyManager.init false
      Part003.TelegramOutcome.throws (fun _ => FetchOutcome.thrown ("e"))
      (some ("q")) (some [("eitaa"), ("eitaa")]) 20).total = 20
    ∧ respSum (Part003.multi (ApiKeys.mk [] [] []) KeyManager.init false
      Part003.TelegramOutcome.throws (fun _ => FetchOutcome.thrown ("e"))
      (some ("q")) (some [("eitaa"), ("eitaa")]) 20).entries = 10 := by
  exact ⟨rfl, rfl⟩

/-- C6 (amended): whenever the requested platforms list contains no
duplicate identifiers, the part_003 /api/search/multi response has its
top-level total equal to the sum of data.total over exactly the
success-true platform entries. -/
theorem multi_total_eq_respSum (handler : String → Part003.HandlerBehavior)
    (query : Option String) (platforms : Option (List String))
    (hn : (platforms.getD []).Nodup) :
    (Part003.multiEndpoint handler query platforms).total
      = respSum (Part003.multiEndpoint handler query platforms).entries := by
  unfold Part003.multiEndpoint
  by_cases hq : isBlankJS query = true
  · rw [if_pos hq]
    simp [respSum]
  · rw [if_neg hq]
    by_cases hp : (platforms.getD []).isEmpty = true
    · rw [if_pos hp]
      simp [respSum]
    · rw [if_neg hp]
      show (Part003.aggregate _).2 = respSum (Part003.aggregate _).1
      rw [Part003.aggregate_eq _ (by rw [map_fst_keyed]; exact hn)]
      exact (Part003.respSum_map _).symm

/-- Witness for C6 (amended): on a concrete duplicate-free request the
total equals the success-entry sum. -/
theorem multi_total_eq_respSum_witness :
    (Part003.multiEndpoint
      (fun p => Part003.HandlerBehavior.returns
        (some (Part003.createMockResults p ("q") 20))) (some ("q"))
      (some [("eitaa"), ("rubika")])).total
      = respSum (Part003.multiEndpoint
        (fun p => Part003.HandlerBehavior.returns
          (some (Part003.createMockResults p ("q") 20))) (some ("q"))
        (some [("eitaa"), ("rubika")])).entries :=
  multi_total_eq_respSum
    (fun p => Part003.HandlerBehavior.returns
      (some (Part003.createMockResults p ("q") 20)))
    (some ("q")) (some [("eitaa"), ("rubika")]) (by decide)

/-- Counterexample for C7: the Railway variant dispatcher routes an
unsupported platform identifier to the mock generator, so its entry is
a success without any error string, not the per-platform error entry
the claim requires. -/
theorem serverV2_unsupported_platform_mocked :
    (ServerV2.dispatch false (Except.error ("")) ("q") 20
      ("foobar")).success = true
    ∧ (ServerV2.dispatch false (Except.error ("")) ("q") 20
      ("foobar")).error = none := by
  exact ⟨rfl, rfl⟩

/-- C7 (amended): in the part_003 dispatcher, an unsupported platform
identifier in a duplicate-free platforms list yields a per-platform
entry with success false and an Unsupported platform error string, the
response status stays 200, and every requested platform keeps an entry
equal to its own handler outcome; the server.js variants behave
differently (the Railway variant returns mock data for unknown
identifiers and the final variant fails the whole request). -/
theorem multi_unsupported_platform_error_entry (keys : ApiKeys)
    (km : KeyManager) (connected : Bool)
    (tgOracle : Part003.TelegramOutcome) (twOracle : Nat → FetchOutcome)
    (query : Option String) (ps : List String) (count : Nat) (p : String)
    (hq : isBlankJS query = false) (hne : ps.isEmpty = false)
    (hn : ps.Nodup) (hp : p ∈ ps)
    (hunsup : jsToLower p ∉ Part003.supportedPlatforms) :
    (Part003.multi keys km connected tgOracle twOracle query (some ps)
      count).status = 200
    ∧ findEntry p (Part003.multi keys km connected tgOracle twOracle query
        (some ps) count).entries
      = some { success := false,
               error := some (("Unsupported platform: ") ++ p),
               data := some { platform := p } }
    ∧ ∀ q ∈ ps, findEntry q (Part003.multi keys km connected tgOracle
        twOracle query (some ps) count).entries
      = some (Part003.settleValue q (Part003.dispatch keys km connected
          tgOracle twOracle (query.getD ("")) count q)) := by
  have hent := multiEndpoint_entries
    (fun q => Part003.HandlerBehavior.returns (Part003.dispatch keys km
      connected tgOracle twOracle (query.getD ("")) count q))
    query ps hq hne hn
  have hall : ∀ q ∈ ps, findEntry q (Part003.multi keys km connected
      tgOracle twOracle query (some ps) count).entries
      = some (Part003.settleValue q (Part003.dispatch keys km connected
          tgOracle twOracle (query.getD ("")) count q)) := by
    intro q hqs
    unfold Part003.multi
    rw [hent]
    exact findEntry_map _ q ps hqs
  refine ⟨?_, ?_, hall⟩
  · unfold Part003.multi
    rw [multiEndpoint_open _ query ps hq hne]
  · rw [hall p hp, dispatch_unsupported_aux keys km connected tgOracle
      twOracle (query.getD ("")) count p hunsup]
    rfl

/-- Witness for C7 (amended): the concrete request for eitaa and an
unknown identifier keeps status 200 and stores an Unsupported platform
error entry under the unknown name. -/
theorem multi_unsupported_platform_error_entry_witness :
    findEntry ("foobar") (Part003.multi (ApiKeys.mk [] [] [])
      KeyManager.init false Part003.TelegramOutcome.throws
      (fun _ => FetchOutcome.thrown ("e")) (some ("q"))
      (some [("eitaa"), ("foobar")]) 20).entries
      = some { success := false,
               error := some (("Unsupported platform: ") ++ ("foobar")),
               data := some { platform := ("foobar") } } :=
  (multi_unsupported_platform_error_entry (ApiKeys.mk [] [] [])
    KeyManager.init false Part003.TelegramOutcome.throws
    (fun _ => FetchOutcome.thrown ("e")) (some ("q"))
    [("eitaa"), ("foobar")] 20 ("foobar") (by decide) (by decide)
    (by decide) (by decide) (by decide)).2.1

/-- Counterexample for C8: in the final server.js variant a rejected
telegram handler is recorded under the key unknown (from
e.platform || "unknown" on an Error without a platform property), not
in the telegram result slot, even though the sibling twitter result is
present and the status is 200. -/
theorem serverFinal_failure_recorded_under_unknown :
    (ServerFinal.multiEndpoint (ApiKeys.mk [] [] [("k")]) KeyManager.init
      (fun _ => FetchOutcome.resp 200 (some [("t1")])) false
      Part003.TelegramOutcome.throws (some ("q"))
      (some [("twitter"), ("telegram")]) 10).status = 200
    ∧ findEntry ("telegram") (ServerFinal.multiEndpoint
        (ApiKeys.mk [] [] [("k")]) KeyManager.init
        (fun _ => FetchOutcome.resp 200 (some [("t1")])) false
        Part003.TelegramOutcome.throws (some ("q"))
        (some [("twitter"), ("telegram")]) 10).entries = none
    ∧ findEntry ("unknown") (ServerFinal.multiEndpoint
        (ApiKeys.mk [] [] [("k")]) KeyManager.init
        (fun _ => FetchOutcome.resp 200 (some [("t1")])) false
        Part003.TelegramOutcome.throws (some ("q"))
        (some [("twitter"), ("telegram")]) 10).entries
      = some { success := false,
               error := some ("Telegram client is not connected. Please check server logs."),
               data := some { platform := ("unknown") } } := by
  exact ⟨rfl, rfl, rfl⟩

/-- C8 (amended): in the part_003 /api/search/multi handler, when any
one platform handler throws (or resolves with undefined), the response
status is still 200, that platform slot carries the failure record, and
every requested platform keeps the entry its own handler produced; the
final server.js variant instead records such failures under the
errors platform property, which is always absent, hence under
unknown. -/
theorem multi_handler_throw_isolated
    (handler : String → Part003.HandlerBehavior) (query : Option String)
    (ps : List String) (p : String) (msg : String)
    (hq : isBlankJS query = false) (hne : ps.isEmpty = false)
    (hn : ps.Nodup) (hp : p ∈ ps)
    (hthrow : handler p = Part003.HandlerBehavior.throws msg) :
    (Part003.multiEndpoint handler query (some ps)).status = 200
    ∧ findEntry p (Part003.multiEndpoint handler query (some ps)).entries
      = some { success := false, error := some msg,
               data := some { platform := p } }
    ∧ ∀ q ∈ ps, findEntry q (Part003.multiEndpoint handler query
        (some ps)).entries
      = some (Part003.settleValue q (Part003.searchPromise q (handler q))) := by
  have hent := multiEndpoint_entries handler query ps hq hne hn
  have hall : ∀ q ∈ ps, findEntry q (Part003.multiEndpoint handler query
      (some ps)).entries
      = some (Part003.settleValue q (Part003.searchPromise q (handler q))) := by
    intro q hqs
    rw [hent]
    exact findEntry_map _ q ps hqs
  refine ⟨?_, ?_, hall⟩
  · rw [multiEndpoint_open handler query ps hq hne]
  · rw [hall p hp, hthrow]
    rfl

/-- Witness for C8 (amended): with a telegram handler that throws and a
mock eitaa handler, the concrete response keeps status 200 and stores
the failure in the telegram slot. -/
theorem multi_handler_throw_isolated_witness :
    findEntry ("telegram") (Part003.multiEndpoint
      (fun q => if q == ("telegram") then
          Part003.HandlerBehavior.throws ("boom")
        else Part003.HandlerBehavior.returns
          (some (Part003.createMockResults q ("q") 5)))
      (some ("q")) (some [("eitaa"), ("telegram")])).entries
      = some { success := false, error := some ("boom"),
               data := some { platform := ("telegram") } } :=
  (multi_handler_throw_isolated
    (fun q => if q == ("telegram") then
        Part003.HandlerBehavior.throws ("boom")
      else Part003.HandlerBehavior.returns
        (some (Part003.createMockResults q ("q") 5)))
    (some ("q")) [("eitaa"), ("telegram")] ("telegram") ("boom")
    (by decide) (by decide) (by decide) (by decide) rfl).2.1

end Kavosh
